import Mathlib

/-!
# Verification of the Mobile-Agent C launchers

Shallow embedding of the two launcher programs `src/agent-noshell.c` and
`src/agent-noshrc.c`.  A C `char *` cell is modelled as `Option String`
(`none` is the NULL pointer), a NULL-terminated `char **` table as a
`List (Option String)`, and the inherited process environment as a
function `String → Option String` (the semantics of `getenv`).  Each
`main` is modelled as a total function from the inherited environment and
the argument vector to a `MainResult`: either the process exits by itself
(with an exit code and the lines written to stdout/stderr), or it reaches
the process-replacement call, in which case the result records the path,
argument vector and environment table passed to `execv`/`execve`, the
stderr lines written before the call, and the behaviour of the
continuation that runs if the replacement call returns (the fixed part of
the `perror` message, and the exit code).
-/

/-- A C `char *` array cell: `none` models the NULL pointer. -/
abbrev CStr := Option String

/-- Key of an environment entry `KEY=VALUE`: the characters before the
first `=` (as `putenv`/`execve` consumers parse it). -/
def envKey (s : String) : String := String.mk (s.data.takeWhile (fun c => c ≠ '='))

/-- The non-NULL entries of a table. -/
def tableEntries (t : List CStr) : List String := t.filterMap id

/-- A table is sentinel-terminated: some list of real entries followed by
exactly one terminating NULL. -/
def sentinelTerminated (t : List CStr) : Prop :=
  ∃ es : List String, t = es.map some ++ [none]

/-- The fixed five-key allow-list both launchers build their clean
environment from. -/
def allowedKeys : List String :=
  ["PATH", "PYTHONPATH", "PYTHONIOENCODING", "PYTHONNOUSERSITE",
   "PYTHONDONTWRITEBYTECODE"]

/-- Outcome of a launcher run, up to the process-replacement call. -/
inductive MainResult where
  /-- The launcher exits on its own with `code`, having written the given
  lines to stdout and stderr. -/
  | exited (code : Nat) (stdout stderr : List String) : MainResult
  /-- The launcher reaches `execv`/`execve` with the given path, argument
  vector and environment table, after writing `preStderr` to stderr; if
  the call returns, the launcher writes a `perror` message whose fixed
  part is `failMsg` and exits with `failCode`. -/
  | execCall (path : String) (args : List CStr) (envTable : List CStr)
      (preStderr : List String) (failMsg : String) (failCode : Nat) : MainResult
deriving DecidableEq

namespace AgentNoshell

/-- `agent-noshell.c` lines 17–24: after `clearenv()` the five `setenv`
calls leave exactly these entries in the process environment, which
`execv` then passes on. -/
def minimalEnv : List CStr :=
  [some "PATH=/usr/bin:/bin:/usr/local/bin",
   some "PYTHONIOENCODING=utf-8",
   some "PYTHONPATH=/root/Tools/Mobile-Agent",
   some "PYTHONDONTWRITEBYTECODE=1",
   some "PYTHONNOUSERSITE=1",
   none]

/-- `agent-noshell.c` lines 28–31: the four fixed cells written at
indices 0–3 of `python_argv`. -/
def fixedCells : List CStr :=
  [some "/usr/bin/python3", some "-E", some "-s",
   some "/root/Tools/Mobile-Agent/agent-direct"]

/-- `agent-noshell.c` lines 27–38: the sequence of writes into the
1024-cell buffer `python_argv`, as `(index, value)` pairs, in program
order.  The copy loop `for (i = 1; i < argc && i < 1020; i++)
python_argv[i + 3] = argv[i];` writes `argv[1] … argv[min(argc,1020)-1]`
at indices 4 …, i.e. the first 1019 caller arguments; it leaves `i =
min argc 1020` (for `argc ≥ 1`), so the final `python_argv[i + 3] = NULL`
writes index `min argc 1020 + 3`. -/
def python_argv_writes (argv : List String) : List (Nat × CStr) :=
  fixedCells.enum ++
  ((argv.drop 1).take 1019).enum.map (fun p => (p.1 + 4, some p.2)) ++
  [(min argv.length 1020 + 3, none)]

/-- The writes hit exactly the indices `0, 1, …` in order with no gap and
no repetition (for `argc ≥ 1`), so the vector handed to `execv` is the
written values in program order. -/
def python_argv (argv : List String) : List CStr :=
  (python_argv_writes argv).map Prod.snd

/-- `agent-noshell.c` `main`.  The unused `env` parameter records that the
inherited environment is discarded (`clearenv`) and never read. -/
def main (env : String → Option String) (argv : List String) : MainResult :=
  if argv.length < 2 then
    .exited 1 [] ["Usage: agent-noshell <request>"]
  else
    .execCall "/usr/bin/python3" (python_argv argv) minimalEnv []
      "Failed to execute Python" 1

end AgentNoshell

namespace AgentNoshrc

/-- `agent-noshrc.c` lines 37–44: the base clean environment table. -/
def clean_env : List CStr :=
  [some "PATH=/usr/bin:/bin:/usr/local/bin:/sbin:/usr/sbin",
   some "PYTHONPATH=/root/.mobile-agent",
   some "PYTHONIOENCODING=utf-8",
   some "PYTHONNOUSERSITE=1",
   some "PYTHONDONTWRITEBYTECODE=1",
   none]

/-- `agent-noshrc.c` lines 51–59: the clean environment table extended
with the debug toggle. -/
def clean_env_debug : List CStr :=
  [some "PATH=/usr/bin:/bin:/usr/local/bin:/sbin:/usr/sbin",
   some "PYTHONPATH=/root/.mobile-agent",
   some "PYTHONIOENCODING=utf-8",
   some "PYTHONNOUSERSITE=1",
   some "PYTHONDONTWRITEBYTECODE=1",
   some "AGENT_DEBUG_SUBPROCESS=1",
   none]

/-- `agent-noshrc.c` lines 47–48: `getenv("AGENT_DEBUG_SUBPROCESS")`
succeeded and the value compares equal to `"1"`. -/
def debugRequested (env : String → Option String) : Bool :=
  match env "AGENT_DEBUG_SUBPROCESS" with
  | some v => v == "1"
  | none => false

/-- `agent-noshrc.c` lines 37–61: the environment table that reaches
`execve` (the intended effect of `clean_env = clean_env_debug;`). -/
def envTable (env : String → Option String) : List CStr :=
  if debugRequested env then clean_env_debug else clean_env

/-- `agent-noshrc.c` lines 25–34: `agent_args`, a VLA of size
`argc + 2` — two fixed cells, all `argc - 1` caller arguments in order,
and the NULL sentinel.  No truncation occurs at any length. -/
def agent_args (argv : List String) : List CStr :=
  some "/root/.mobile-agent/.claude_venv/bin/python" ::
  some "/root/.mobile-agent/agent" ::
  ((argv.drop 1).map some ++ [none])

/-- `agent-noshrc.c` line 32: the per-argument diagnostic lines written
to stderr inside the copy loop (`Arg i: argv[i]` for `i = 1 … argc-1`). -/
def argLines (argv : List String) : List String :=
  (argv.drop 1).enum.map
    (fun p => "🔍 C WRAPPER: Arg " ++ toString (p.1 + 1) ++ ": " ++ p.2)

/-- `agent-noshrc.c` lines 22–63: everything written to stderr before the
`execve` call, in program order. -/
def preStderrLines (env : String → Option String) (argv : List String) :
    List String :=
  ("🔍 C WRAPPER (ARM64): Starting with " ++ toString argv.length ++ " args") ::
  (argLines argv ++
    (if debugRequested env then ["🔍 C WRAPPER: Adding debug flag"] else []) ++
    ["🔍 C WRAPPER: Executing with clean environment"])

/-- `agent-noshrc.c` `main`.  The `--help` branch fires exactly when
`argc > 1 && strcmp(argv[1], "--help") == 0`, i.e. when cell 1 of the
argument vector exists and is the string `--help`. -/
def main (env : String → Option String) (argv : List String) : MainResult :=
  if argv[1]? = some "--help" then
    .exited 0
      ["Mobile Agent C Wrapper (ARM64)",
       "Prevents .zshrc loading by using execve() directly",
       "Usage: " ++ argv.headD "" ++ " <agent-request>"]
      []
  else
    .execCall "/root/.mobile-agent/.claude_venv/bin/python"
      (agent_args argv) (envTable env) (preStderrLines env argv)
      "🔍 C WRAPPER: execve failed" 1

end AgentNoshrc

/-! ## Shared helper lemmas -/

/-- `[0,1,2,3] ++ [4,…,n+3] ++ [n+4]` enumerates `0 … n+4`. -/
theorem range_cells_decomp (n : Nat) :
    List.range (n + 5) =
      [0, 1, 2, 3] ++ (List.range n).map (· + 4) ++ [n + 4] := by
  induction n with
  | zero => decide
  | succ k ih =>
    rw [show k + 1 + 5 = (k + 5) + 1 by omega, List.range_succ, ih,
      List.range_succ]
    simp [List.append_assoc]

namespace AgentNoshell

/-- Every cell of the 1024-cell buffer that the construction writes has
index `0, 1, 2, …` in program order, with no gap and no repetition: the
write trace is faithful to the C loop, and reading the buffer back in
index order yields exactly the written values (`python_argv`). -/
theorem python_argv_writes_fst (argv : List String) (h : 1 ≤ argv.length) :
    (python_argv_writes argv).map Prod.fst =
      List.range ((python_argv_writes argv).length) := by
  have hmin : min argv.length 1020 + 3 =
      ((argv.drop 1).take 1019).length + 4 := by
    simp only [List.length_take, List.length_drop]
    omega
  have hlen : (python_argv_writes argv).length =
      ((argv.drop 1).take 1019).length + 5 := by
    simp [python_argv_writes, fixedCells]
    omega
  have hmap : ((argv.drop 1).take 1019).enum.map
        (Prod.fst ∘ fun p : Nat × String => (p.1 + 4, some p.2)) =
      (List.range ((argv.drop 1).take 1019).length).map (· + 4) := by
    rw [show (Prod.fst ∘ fun p : Nat × String => (p.1 + 4, some p.2)) =
        ((· + 4) ∘ Prod.fst) from rfl, ← List.map_map, List.enum_map_fst]
  have hfixed : fixedCells.enum.map Prod.fst = [0, 1, 2, 3] := by decide
  rw [hlen, range_cells_decomp]
  simp only [python_argv_writes, List.map_append, List.map_map, List.map_cons,
    List.map_nil]
  rw [hfixed, hmap, hmin]

/-- The vector handed to `execv`: the four fixed cells, the first 1019
caller arguments, the NULL sentinel. -/
theorem python_argv_eq (argv : List String) :
    python_argv argv =
      fixedCells ++ ((argv.drop 1).take 1019).map some ++ [none] := by
  simp only [python_argv, python_argv_writes, List.map_append, List.map_map]
  rw [show (Prod.snd ∘ fun p : Nat × String => (p.1 + 4, some p.2)) =
      (some ∘ Prod.snd) from rfl, ← List.map_map, List.enum_map_snd,
    List.enum_map_snd]
  simp

end AgentNoshell

/-- `envTable` only reads the debug toggle from the inherited
environment. -/
theorem AgentNoshrc.envTable_congr (env1 env2 : String → Option String)
    (h : env1 "AGENT_DEBUG_SUBPROCESS" = env2 "AGENT_DEBUG_SUBPROCESS") :
    AgentNoshrc.envTable env1 = AgentNoshrc.envTable env2 := by
  have hb : AgentNoshrc.debugRequested env1 =
      AgentNoshrc.debugRequested env2 := by
    unfold AgentNoshrc.debugRequested
    rw [h]
  simp [AgentNoshrc.envTable, hb]

/-! ## Claim theorems -/

/-- C1: the environment table passed to the process-replacement call is
built only from the fixed five-key allow-list (plus, in `agent-noshrc`,
the `AGENT_DEBUG_SUBPROCESS` toggle), never from the caller's original
environment; it is sentinel-terminated with no duplicate key, and two
runs whose inherited environments agree on `AGENT_DEBUG_SUBPROCESS`
construct identical tables. -/
theorem c1_env_allowlist_and_determinism
    (env env1 env2 : String → Option String) :
    (∀ argv p args et errs m c,
        AgentNoshell.main env argv = .execCall p args et errs m c →
          et = AgentNoshell.minimalEnv)
    ∧ sentinelTerminated AgentNoshell.minimalEnv
    ∧ ((tableEntries AgentNoshell.minimalEnv).map envKey).Nodup
    ∧ (∀ k ∈ (tableEntries AgentNoshell.minimalEnv).map envKey,
        k ∈ allowedKeys)
    ∧ (∀ argv p args et errs m c,
        AgentNoshrc.main env argv = .execCall p args et errs m c →
          et = AgentNoshrc.envTable env)
    ∧ sentinelTerminated (AgentNoshrc.envTable env)
    ∧ ((tableEntries (AgentNoshrc.envTable env)).map envKey).Nodup
    ∧ (∀ k ∈ (tableEntries (AgentNoshrc.envTable env)).map envKey,
        k ∈ allowedKeys ∨ k = "AGENT_DEBUG_SUBPROCESS")
    ∧ (env1 "AGENT_DEBUG_SUBPROCESS" = env2 "AGENT_DEBUG_SUBPROCESS" →
        AgentNoshrc.envTable env1 = AgentNoshrc.envTable env2) := by
  refine ⟨?_, ?_, by decide, by decide, ?_, ?_, ?_, ?_,
    AgentNoshrc.envTable_congr env1 env2⟩
  · intro argv p args et errs m c h
    unfold AgentNoshell.main at h
    split at h
    · exact absurd h (by simp)
    · injection h with h1 h2 h3
      exact h3.symm
  · exact ⟨["PATH=/usr/bin:/bin:/usr/local/bin", "PYTHONIOENCODING=utf-8",
      "PYTHONPATH=/root/Tools/Mobile-Agent", "PYTHONDONTWRITEBYTECODE=1",
      "PYTHONNOUSERSITE=1"], rfl⟩
  · intro argv p args et errs m c h
    unfold AgentNoshrc.main at h
    split at h
    · exact absurd h (by simp)
    · injection h with h1 h2 h3
      exact h3.symm
  · unfold AgentNoshrc.envTable
    split
    · exact ⟨["PATH=/usr/bin:/bin:/usr/local/bin:/sbin:/usr/sbin",
        "PYTHONPATH=/root/.mobile-agent", "PYTHONIOENCODING=utf-8",
        "PYTHONNOUSERSITE=1", "PYTHONDONTWRITEBYTECODE=1",
        "AGENT_DEBUG_SUBPROCESS=1"], rfl⟩
    · exact ⟨["PATH=/usr/bin:/bin:/usr/local/bin:/sbin:/usr/sbin",
        "PYTHONPATH=/root/.mobile-agent", "PYTHONIOENCODING=utf-8",
        "PYTHONNOUSERSITE=1", "PYTHONDONTWRITEBYTECODE=1"], rfl⟩
  · unfold AgentNoshrc.envTable
    split
    · decide
    · decide
  · unfold AgentNoshrc.envTable
    split
    · decide
    · decide

/-- Witness for C1: a run whose whole environment maps to `"1"` and a run
that only sets the debug toggle to `"1"` build the same table. -/
theorem c1_witness :
    AgentNoshrc.envTable (fun _ => some "1") =
      AgentNoshrc.envTable
        (fun k => if k = "AGENT_DEBUG_SUBPROCESS" then some "1" else none) :=
  (c1_env_allowlist_and_determinism (fun _ => none) (fun _ => some "1")
    (fun k => if k = "AGENT_DEBUG_SUBPROCESS" then some "1"
      else none)).2.2.2.2.2.2.2.2 (by simp)

/-- C2: within capacity, the constructed argument vector is exactly the
fixed cells, then the caller's arguments in original order unmodified,
then the NULL sentinel, for a total of `L + prefixLen + 1` entries
(prefix length 4 in `agent-noshell`, 2 in `agent-noshrc`). -/
theorem c2_argv_layout (argv : List String) :
    (2 ≤ argv.length → argv.length ≤ 1020 →
      AgentNoshell.python_argv argv =
          AgentNoshell.fixedCells ++ (argv.drop 1).map some ++ [none]
        ∧ (AgentNoshell.python_argv argv).length = (argv.length - 1) + 4 + 1)
    ∧ (1 ≤ argv.length →
      AgentNoshrc.agent_args argv =
          [some "/root/.mobile-agent/.claude_venv/bin/python",
           some "/root/.mobile-agent/agent"] ++ (argv.drop 1).map some ++
            [none]
        ∧ (AgentNoshrc.agent_args argv).length =
            (argv.length - 1) + 2 + 1) := by
  constructor
  · intro h2 h1020
    have htake : (argv.drop 1).take 1019 = argv.drop 1 :=
      List.take_of_length_le (by simp; omega)
    rw [AgentNoshell.python_argv_eq, htake]
    refine ⟨rfl, ?_⟩
    simp [AgentNoshell.fixedCells]
  · intro h1
    refine ⟨rfl, ?_⟩
    simp [AgentNoshrc.agent_args]

/-- Witness for C2 at the concrete invocation `["wrapper", "hello"]`. -/
theorem c2_witness :
    (AgentNoshell.python_argv ["wrapper", "hello"] =
        AgentNoshell.fixedCells ++
          (["wrapper", "hello"].drop 1).map some ++ [none]
      ∧ (AgentNoshell.python_argv ["wrapper", "hello"]).length =
          (["wrapper", "hello"].length - 1) + 4 + 1)
    ∧ (AgentNoshrc.agent_args ["wrapper", "hello"] =
        [some "/root/.mobile-agent/.claude_venv/bin/python",
         some "/root/.mobile-agent/agent"] ++
          (["wrapper", "hello"].drop 1).map some ++ [none]
      ∧ (AgentNoshrc.agent_args ["wrapper", "hello"]).length =
          (["wrapper", "hello"].length - 1) + 2 + 1) :=
  ⟨(c2_argv_layout ["wrapper", "hello"]).1 (by decide) (by decide),
   (c2_argv_layout ["wrapper", "hello"]).2 (by decide)⟩

/-- C3: whenever either launcher's process-replacement call returns, the
launcher writes a non-empty message to stderr and exits with code 1 —
each `main` records a single replacement call whose failure continuation
carries a non-empty message and exit code 1, with no retry path. -/
theorem c3_exec_failure_reports (env : String → Option String)
    (argv : List String) (p : String) (args et : List CStr)
    (errs : List String) (m : String) (c : Nat) :
    (AgentNoshell.main env argv = .execCall p args et errs m c →
      m ≠ "" ∧ c = 1)
    ∧ (AgentNoshrc.main env argv = .execCall p args et errs m c →
      m ≠ "" ∧ c = 1) := by
  constructor
  · intro h
    unfold AgentNoshell.main at h
    split at h
    · exact absurd h (by simp)
    · injection h with h1 h2 h3 h4 h5 h6
      subst h5 h6
      exact ⟨by decide, rfl⟩
  · intro h
    unfold AgentNoshrc.main at h
    split at h
    · exact absurd h (by simp)
    · injection h with h1 h2 h3 h4 h5 h6
      subst h5 h6
      exact ⟨by decide, rfl⟩

/-- Witness for C3: the failure continuation of
`agent-noshell wrapper hello` has a non-empty message and exit code 1. -/
theorem c3_witness : "Failed to execute Python" ≠ "" ∧ (1 : Nat) = 1 :=
  (c3_exec_failure_reports (fun _ => none) ["wrapper", "hello"]
    "/usr/bin/python3" (AgentNoshell.python_argv ["wrapper", "hello"])
    AgentNoshell.minimalEnv [] "Failed to execute Python" 1).1 rfl

/-- C4: in `agent-noshrc`, an inherited `AGENT_DEBUG_SUBPROCESS=1` puts
exactly the entry `AGENT_DEBUG_SUBPROCESS=1` in the constructed table;
when the variable is absent or has value `"0"`, no entry with that key is
present. -/
theorem c4_debug_toggle (env : String → Option String) :
    (env "AGENT_DEBUG_SUBPROCESS" = some "1" →
      some "AGENT_DEBUG_SUBPROCESS=1" ∈ AgentNoshrc.envTable env)
    ∧ ((env "AGENT_DEBUG_SUBPROCESS" = none ∨
        env "AGENT_DEBUG_SUBPROCESS" = some "0") →
      ∀ e ∈ tableEntries (AgentNoshrc.envTable env),
        envKey e ≠ "AGENT_DEBUG_SUBPROCESS") := by
  constructor
  · intro h
    have hb : AgentNoshrc.debugRequested env = true := by
      simp [AgentNoshrc.debugRequested, h]
    simp [AgentNoshrc.envTable, hb, AgentNoshrc.clean_env_debug]
  · intro h
    have hb : AgentNoshrc.debugRequested env = false := by
      rcases h with h | h <;> simp [AgentNoshrc.debugRequested, h]
    rw [show AgentNoshrc.envTable env = AgentNoshrc.clean_env by
      simp [AgentNoshrc.envTable, hb]]
    decide

/-- Witness for C4: the toggle entry appears when the inherited value is
exactly `"1"` and no such key appears when the variable is absent. -/
theorem c4_witness :
    some "AGENT_DEBUG_SUBPROCESS=1" ∈
      AgentNoshrc.envTable
        (fun k => if k = "AGENT_DEBUG_SUBPROCESS" then some "1" else none)
    ∧ ∀ e ∈ tableEntries (AgentNoshrc.envTable (fun _ => none)),
        envKey e ≠ "AGENT_DEBUG_SUBPROCESS" :=
  ⟨(c4_debug_toggle
      (fun k => if k = "AGENT_DEBUG_SUBPROCESS" then some "1" else none)).1
      (by simp),
   (c4_debug_toggle (fun _ => none)).2 (Or.inl rfl)⟩

/-- C5: in `agent-noshrc`, `--help` as the first caller argument prints
the usage banner to stdout and exits 0 with no replacement call; when
cell 1 is anything else (so also when `--help` appears only later), the
program goes on to the replacement call. -/
theorem c5_help_flag (env : String → Option String) (argv : List String) :
    (argv[1]? = some "--help" →
      AgentNoshrc.main env argv =
        .exited 0
          ["Mobile Agent C Wrapper (ARM64)",
           "Prevents .zshrc loading by using execve() directly",
           "Usage: " ++ argv.headD "" ++ " <agent-request>"] [])
    ∧ (argv[1]? ≠ some "--help" →
      AgentNoshrc.main env argv =
        .execCall "/root/.mobile-agent/.claude_venv/bin/python"
          (AgentNoshrc.agent_args argv) (AgentNoshrc.envTable env)
          (AgentNoshrc.preStderrLines env argv)
          "🔍 C WRAPPER: execve failed" 1) := by
  constructor
  · intro h
    simp [AgentNoshrc.main, h]
  · intro h
    simp [AgentNoshrc.main, h]

/-- Witness for C5: `--help` in position 1 exits 0 with the banner, while
`--help` in a later position still reaches the replacement call. -/
theorem c5_witness :
    AgentNoshrc.main (fun _ => none) ["wrapper", "--help"] =
      .exited 0
        ["Mobile Agent C Wrapper (ARM64)",
         "Prevents .zshrc loading by using execve() directly",
         "Usage: " ++ (["wrapper", "--help"] : List String).headD "" ++
           " <agent-request>"] []
    ∧ AgentNoshrc.main (fun _ => none) ["wrapper", "x", "--help"] =
      .execCall "/root/.mobile-agent/.claude_venv/bin/python"
        (AgentNoshrc.agent_args ["wrapper", "x", "--help"])
        (AgentNoshrc.envTable (fun _ => none))
        (AgentNoshrc.preStderrLines (fun _ => none) ["wrapper", "x", "--help"])
        "🔍 C WRAPPER: execve failed" 1 :=
  ⟨(c5_help_flag (fun _ => none) ["wrapper", "--help"]).1 rfl,
   (c5_help_flag (fun _ => none) ["wrapper", "x", "--help"]).2 (by decide)⟩

/-- C6: with no caller argument, `agent-noshell` exits 1 with a usage
message on stderr and no replacement call, while `agent-noshrc` proceeds
to the replacement call with the two fixed cells and the sentinel only. -/
theorem c6_no_caller_args (env : String → Option String)
    (argv : List String) :
    (argv.length < 2 →
      AgentNoshell.main env argv =
        .exited 1 [] ["Usage: agent-noshell <request>"])
    ∧ (argv.length = 1 →
      AgentNoshrc.main env argv =
        .execCall "/root/.mobile-agent/.claude_venv/bin/python"
          [some "/root/.mobile-agent/.claude_venv/bin/python",
           some "/root/.mobile-agent/agent", none]
          (AgentNoshrc.envTable env) (AgentNoshrc.preStderrLines env argv)
          "🔍 C WRAPPER: execve failed" 1) := by
  constructor
  · intro h
    simp [AgentNoshell.main, h]
  · intro h
    have h1 : argv[1]? = none := List.getElem?_eq_none (by omega)
    have hargs : AgentNoshrc.agent_args argv =
        [some "/root/.mobile-agent/.claude_venv/bin/python",
         some "/root/.mobile-agent/agent", none] := by
      have hd : argv.drop 1 = [] := List.drop_eq_nil_of_le (by omega)
      simp [AgentNoshrc.agent_args, hd]
    rw [show AgentNoshrc.main env argv =
        .execCall "/root/.mobile-agent/.claude_venv/bin/python"
          (AgentNoshrc.agent_args argv) (AgentNoshrc.envTable env)
          (AgentNoshrc.preStderrLines env argv)
          "🔍 C WRAPPER: execve failed" 1 by
      simp [AgentNoshrc.main, h1], hargs]

/-- Witness for C6 at the bare invocations `["agent-noshell"]` and
`["wrapper"]`. -/
theorem c6_witness :
    AgentNoshell.main (fun _ => none) ["agent-noshell"] =
      .exited 1 [] ["Usage: agent-noshell <request>"]
    ∧ AgentNoshrc.main (fun _ => none) ["wrapper"] =
      .execCall "/root/.mobile-agent/.claude_venv/bin/python"
        [some "/root/.mobile-agent/.claude_venv/bin/python",
         some "/root/.mobile-agent/agent", none]
        (AgentNoshrc.envTable (fun _ => none))
        (AgentNoshrc.preStderrLines (fun _ => none) ["wrapper"])
        "🔍 C WRAPPER: execve failed" 1 :=
  ⟨(c6_no_caller_args (fun _ => none) ["agent-noshell"]).1 (by decide),
   (c6_no_caller_args (fun _ => none) ["wrapper"]).2 rfl⟩

/-- A string starting with a non-empty string is non-empty. -/
theorem string_append_ne_empty (a b : String) (h : a ≠ "") :
    a ++ b ≠ "" := by
  intro hc
  apply h
  have hl := congrArg String.length hc
  rw [String.length_append] at hl
  have ha : a.length = 0 := by
    have : ("" : String).length = 0 := rfl
    omega
  cases a with
  | mk d =>
    cases d with
    | nil => rfl
    | cons c t => simp [String.length] at ha

/-- C7: over capacity (more than 1019 caller arguments), every write into
the 1024-cell buffer stays in bounds, and the constructed vector silently
truncates to the fixed cells, the first 1019 caller arguments and the
NULL sentinel, filling the buffer exactly. -/
theorem c7_truncation_stays_in_bounds (argv : List String)
    (h : 1021 ≤ argv.length) :
    (∀ iv ∈ AgentNoshell.python_argv_writes argv, iv.1 < 1024)
    ∧ AgentNoshell.python_argv argv =
        AgentNoshell.fixedCells ++
          ((argv.drop 1).take 1019).map some ++ [none]
    ∧ (AgentNoshell.python_argv argv).length = 1024 := by
  have hlen : (AgentNoshell.python_argv_writes argv).length = 1024 := by
    simp [AgentNoshell.python_argv_writes, AgentNoshell.fixedCells]
    omega
  refine ⟨?_, AgentNoshell.python_argv_eq argv, ?_⟩
  · intro iv hiv
    have hm : iv.1 ∈ (AgentNoshell.python_argv_writes argv).map Prod.fst :=
      List.mem_map_of_mem Prod.fst hiv
    rw [AgentNoshell.python_argv_writes_fst argv (by omega), hlen] at hm
    exact List.mem_range.mp hm
  · simp [AgentNoshell.python_argv, hlen]

/-- Witness for C7 at a concrete invocation with 1020 caller arguments
(one over the 1019 that fit). -/
theorem c7_witness :
    (∀ iv ∈ AgentNoshell.python_argv_writes
        ("wrapper" :: List.replicate 1020 "a"), iv.1 < 1024)
    ∧ AgentNoshell.python_argv ("wrapper" :: List.replicate 1020 "a") =
        AgentNoshell.fixedCells ++
          ((("wrapper" :: List.replicate 1020 "a").drop 1).take 1019).map
            some ++ [none]
    ∧ (AgentNoshell.python_argv
        ("wrapper" :: List.replicate 1020 "a")).length = 1024 :=
  c7_truncation_stays_in_bounds ("wrapper" :: List.replicate 1020 "a")
    (by rw [List.length_cons, List.length_replicate])

/-- C8: `agent-noshrc` sizes its argument array `argc + 2` at runtime and
never truncates: the constructed vector is the two fixed cells, all
`argc - 1` caller arguments in order, and the sentinel. -/
theorem c8_noshrc_never_truncates (argv : List String)
    (h : 1 ≤ argv.length) :
    (AgentNoshrc.agent_args argv).length = argv.length + 2
    ∧ AgentNoshrc.agent_args argv =
        [some "/root/.mobile-agent/.claude_venv/bin/python",
         some "/root/.mobile-agent/agent"] ++ (argv.drop 1).map some ++
          [none] := by
  refine ⟨?_, rfl⟩
  simp [AgentNoshrc.agent_args]
  omega

/-- Witness for C8 at a concrete invocation with 5000 caller arguments,
far beyond the other variant's capacity. -/
theorem c8_witness :
    (AgentNoshrc.agent_args ("wrapper" :: List.replicate 5000 "a")).length =
        ("wrapper" :: List.replicate 5000 "a").length + 2
    ∧ AgentNoshrc.agent_args ("wrapper" :: List.replicate 5000 "a") =
        [some "/root/.mobile-agent/.claude_venv/bin/python",
         some "/root/.mobile-agent/agent"] ++
          (("wrapper" :: List.replicate 5000 "a").drop 1).map some ++
          [none] :=
  c8_noshrc_never_truncates ("wrapper" :: List.replicate 5000 "a")
    (by rw [List.length_cons, List.length_replicate]; omega)

/-- C9: in `agent-noshrc`, any inherited `AGENT_DEBUG_SUBPROCESS` value
other than exactly `"1"` leaves the base table, with no entry keyed
`AGENT_DEBUG_SUBPROCESS`. -/
theorem c9_debug_requires_exact_one (env : String → Option String)
    (v : String) (h1 : env "AGENT_DEBUG_SUBPROCESS" = some v)
    (h2 : v ≠ "1") :
    AgentNoshrc.envTable env = AgentNoshrc.clean_env
    ∧ ∀ e ∈ tableEntries (AgentNoshrc.envTable env),
        envKey e ≠ "AGENT_DEBUG_SUBPROCESS" := by
  have hb : AgentNoshrc.debugRequested env = false := by
    simp [AgentNoshrc.debugRequested, h1, h2]
  have ht : AgentNoshrc.envTable env = AgentNoshrc.clean_env := by
    simp [AgentNoshrc.envTable, hb]
  refine ⟨ht, ?_⟩
  rw [ht]
  decide

/-- Witness for C9 at the inherited value `"true"`. -/
theorem c9_witness :
    AgentNoshrc.envTable (fun _ => some "true") = AgentNoshrc.clean_env
    ∧ ∀ e ∈ tableEntries (AgentNoshrc.envTable (fun _ => some "true")),
        envKey e ≠ "AGENT_DEBUG_SUBPROCESS" :=
  c9_debug_requires_exact_one (fun _ => some "true") "true" rfl (by decide)

/-- C10: every `agent-noshrc` run that does not take the `--help` path
reaches the replacement call having written only non-empty diagnostic
lines to stderr — at least one, and exactly `(argc - 1) + 2` of them plus
one more when the debug toggle is on. -/
theorem c10_stderr_diagnostics (env : String → Option String)
    (argv : List String) (h : argv[1]? ≠ some "--help") :
    AgentNoshrc.main env argv =
      .execCall "/root/.mobile-agent/.claude_venv/bin/python"
        (AgentNoshrc.agent_args argv) (AgentNoshrc.envTable env)
        (AgentNoshrc.preStderrLines env argv)
        "🔍 C WRAPPER: execve failed" 1
    ∧ AgentNoshrc.preStderrLines env argv ≠ []
    ∧ (∀ s ∈ AgentNoshrc.preStderrLines env argv, s ≠ "")
    ∧ (AgentNoshrc.preStderrLines env argv).length =
        (argv.length - 1) + 2 +
          (if AgentNoshrc.debugRequested env then 1 else 0) := by
  refine ⟨by simp [AgentNoshrc.main, h], by simp [AgentNoshrc.preStderrLines],
    ?_, ?_⟩
  · intro s hs
    simp only [AgentNoshrc.preStderrLines, List.mem_cons,
      List.mem_append] at hs
    rcases hs with hs | ⟨hs | hs⟩ | hs
    · rw [hs]
      exact string_append_ne_empty _ _ (string_append_ne_empty _ _ (by decide))
    · simp only [AgentNoshrc.argLines, List.mem_map] at hs
      obtain ⟨p, hp, hps⟩ := hs
      rw [← hps]
      exact string_append_ne_empty _ _
        (string_append_ne_empty _ _ (string_append_ne_empty _ _ (by decide)))
    · rcases hb : AgentNoshrc.debugRequested env <;> rw [hb] at hs <;>
        simp at hs
      rw [hs]
      decide
    · simp at hs
      rw [hs]
      decide
  · rcases hb : AgentNoshrc.debugRequested env <;>
      simp [AgentNoshrc.preStderrLines, AgentNoshrc.argLines, hb]

/-- Witness for C10 at `wrapper hi` with an empty inherited
environment. -/
theorem c10_witness :
    AgentNoshrc.main (fun _ => none) ["wrapper", "hi"] =
      .execCall "/root/.mobile-agent/.claude_venv/bin/python"
        (AgentNoshrc.agent_args ["wrapper", "hi"])
        (AgentNoshrc.envTable (fun _ => none))
        (AgentNoshrc.preStderrLines (fun _ => none) ["wrapper", "hi"])
        "🔍 C WRAPPER: execve failed" 1
    ∧ AgentNoshrc.preStderrLines (fun _ => none) ["wrapper", "hi"] ≠ []
    ∧ (∀ s ∈ AgentNoshrc.preStderrLines (fun _ => none) ["wrapper", "hi"],
        s ≠ "")
    ∧ (AgentNoshrc.preStderrLines (fun _ => none) ["wrapper", "hi"]).length =
        ((["wrapper", "hi"] : List String).length - 1) + 2 +
          (if AgentNoshrc.debugRequested (fun _ => none) then 1 else 0) :=
  c10_stderr_diagnostics (fun _ => none) ["wrapper", "hi"] (by decide)
